import Mathlib

/-!
Verification of the turn-processing state-transition contract of the
agentic interactive-fiction engine (Firebase functions in
functions/src/index.ts, data model in functions/src/types/gameState.ts).

The embedding is a shallow one:

* The Firestore session collection is a finite association list from
  document id to session document ("Store"); "db.collection(...).doc(id).get()"
  is association-list lookup, "doc.update({gkn, lastModified})" is a
  field-targeted update that rewrites exactly those two fields, and
  "collection.doc(); ref.set(doc)" is insertion of a fresh document.
* The Gemini model is an external oracle.  A call outcome is modelled as
  "Option ParsedTurnReply" (resp. "Option ParsedStoryReply"): "none" stands
  for a transport error or a reply whose text does not parse as JSON
  (JSON.parse throws inside the same try/catch), and "some r" for a parsed
  JSON object, with each expected top-level key carried as an Option.
  A present key whose value is the empty string models the one present-but-
  falsy value a string key can take in JS; a JS "null" value for an object
  key is modelled as the key being absent, since the code treats every falsy
  value identically ("!responseObject.narrative || !responseObject.updatedGkn").
* JS truthiness idioms of the source are kept as explicit functions:
  "jsOrZero" for "turnCount || 0", "jsOrDefault" for "auth?.uid || defaultV",
  and emptiness tests "s = emptyStr" for "!s" on strings.
* Timestamps ("new Date()") are abstract Nat instants supplied by the
  environment; document ids allocated by Firestore are supplied likewise.
* "JSON.stringify(gkn, null, 2)" is modelled at the value level by
  "gknToJson" together with the renderer "Json.render" (whitespace layout
  is abstracted); parsing the echo of an encoded state is "gknFromJson".

Machine integers do not occur: turnCount is a JS number used only as a
counter, modelled as Nat.
-/

/-- A parsed JSON value, as produced by JSON.parse: null, booleans, numbers
(only integer values occur in this development), strings, arrays and objects
with fields in insertion order. -/
inductive Json where
  | null : Json
  | bool : Bool → Json
  | num  : Int → Json
  | str  : String → Json
  | arr  : List Json → Json
  | obj  : List (String × Json) → Json
deriving Inhabited

/-- Npc disposition enum, from gameState.ts: type NpcDisposition. -/
inductive NpcDisposition where
  | friendly | allied | neutral | wary | suspicious | hostile | deceived
deriving Repr, DecidableEq

/-- Status of an NPC plan, from the currentPlan field of interface Npc. -/
inductive PlanStatus where
  | active | failed | succeeded
deriving Repr, DecidableEq

/-- Story genre enum, from gameState.ts: type StoryGenre. -/
inductive StoryGenre where
  | adventure | highFantasy | horror | grittyRealism | survival
  | spyThriller | teenDrama | cyberpunk | sciFi
deriving Repr, DecidableEq

/-- One exit of a location, from interface Location in gameState.ts. -/
structure ExitInfo where
  toLocationId : String
  description : String
  isLocked : Option Bool
  keyId : Option String
deriving Repr, DecidableEq

/-- A location of the world, from interface Location in gameState.ts.
Record-typed TS fields are association lists in insertion order. -/
structure Location where
  id : String
  name : String
  description : String
  exits : List (String × ExitInfo)
  items : List String
deriving Repr, DecidableEq

/-- An item, from interface Item in gameState.ts. -/
structure Item where
  id : String
  name : String
  description : String
deriving Repr, DecidableEq

/-- An NPC plan, the currentPlan field of interface Npc. -/
structure CurrentPlan where
  description : String
  status : PlanStatus
deriving Repr, DecidableEq

/-- An NPC, from interface Npc in gameState.ts.  The schema-free
knowledge bag (Record of any) is an association list of raw Json values. -/
structure Npc where
  id : String
  name : String
  isKeyNpc : Bool
  locationId : String
  motivations : List String
  personalityTags : List String
  speechStyleCues : String
  agenda : String
  disposition : NpcDisposition
  knowledge : List (String × Json)
  currentPlan : Option CurrentPlan

/-- The fluid countdown of the world, from interface GameState in gameState.ts. -/
structure FluidCountdown where
  description : String
  stages : List String
  currentStage : Int
deriving Repr, DecidableEq

/-- One discoverable-info entry, from interface GameState in gameState.ts. -/
structure DiscoverableInfo where
  description : String
  isDiscovered : Bool
deriving Repr, DecidableEq

/-- The player sub-object of the gkn, from interface GameState in gameState.ts. -/
structure Player where
  name : String
  locationId : String
  inventory : List String
deriving Repr, DecidableEq

/-- The world sub-object of the gkn, from interface GameState in gameState.ts.
storyFlags (Record of any) is an association list of raw Json values. -/
structure World where
  genre : StoryGenre
  coreConflict : String
  locations : List (String × Location)
  items : List (String × Item)
  npcs : List (String × Npc)
  fluidCountdown : FluidCountdown
  discoverableInfo : List (String × DiscoverableInfo)
  storyFlags : List (String × Json)

/-- The game-knowledge state blob (the gkn field of the session document). -/
structure Gkn where
  player : Player
  world : World
  turnCount : Nat

/-- The session document stored in Firestore, interface GameState in
gameState.ts.  lastModified (a Date) is an abstract Nat instant. -/
structure GameState where
  sessionId : String
  userId : String
  initialHook : String
  lastModified : Nat
  gkn : Gkn

/-- The HttpsError codes thrown by the two request handlers. -/
inductive ErrCode where
  | invalidArgument | notFound | permissionDenied | internal
deriving Repr, DecidableEq

/-- JS String.prototype.startsWith, as used on playerInput. -/
def jsStartsWith (s pre : String) : Bool := pre.toList.isPrefixOf s.toList

/-- JS String.prototype.endsWith, as used on playerInput. -/
def jsEndsWith (s suf : String) : Bool := suf.toList.isSuffixOf s.toList

/-- JS "n || 0" on a numeric turnCount: falsy (0) is replaced by 0. -/
def jsOrZero (n : Nat) : Nat := if n = 0 then 0 else n

/-- JS "auth?.uid || d": an absent or empty-string uid falls back to d. -/
def jsOrDefault (o : Option String) (d : String) : String :=
  match o with
  | some s => if s = "" then d else s
  | none => d

/-- The sentinel owner id written for unauthenticated creators. -/
def anonymousUserId : String := "anonymous"

/-- The Firestore game_sessions collection: one document per session id. -/
def Store : Type := List (String × GameState)

/-- sessionRef.get(): look a document up by id. -/
def getDoc (store : Store) (id : String) : Option GameState :=
  store.lookup id

/-- sessionRef.update({ gkn, lastModified }): rewrite exactly the gkn and
lastModified fields of the document with the given id, leaving sessionId,
userId and initialHook (and every other document) untouched. -/
def updateDoc (store : Store) (id : String) (g : Gkn) (t : Nat) : Store :=
  store.map fun p => if p.1 = id then (p.1, { p.2 with gkn := g, lastModified := t }) else p

/-- The parsed JSON object of a Game-Master reply, keys narrative and
updatedGkn each optional (absent key, or present JS null for updatedGkn). -/
structure ParsedTurnReply where
  narrative : Option String
  updatedGkn : Option Gkn

/-- The external environment of one processPlayerTurn call: the oracle
outcome (none: transport error or JSON.parse failure), the current instant
for new Date(), and whether the Firestore update succeeds. -/
structure TurnEnv where
  oracle : Option ParsedTurnReply
  now : Nat
  writeOk : Bool

/-- The parsed JSON object of a world-builder reply, keys gkn and
initialHook each optional. -/
structure ParsedStoryReply where
  gkn : Option Gkn
  initialHook : Option String

/-- The external environment of one createStory call: oracle outcome, the
fresh document id allocated by collection.doc(), the current instant, and
whether the Firestore set succeeds. -/
structure StoryEnv where
  oracle : Option ParsedStoryReply
  newSessionId : String
  now : Nat
  writeOk : Bool

/-- The guard "if (!responseObject.narrative || !responseObject.updatedGkn)
throw" merged with the surrounding try/catch: a turn reply survives decoding
iff the call transported, the text parsed, and both keys are present and
truthy (a present empty-string narrative is falsy and fails too). -/
def decodeTurnReply : Option ParsedTurnReply → Option (String × Gkn)
  | none => none
  | some r =>
    match r.narrative, r.updatedGkn with
    | some n, some g => if n = "" then none else some (n, g)
    | _, _ => none

/-- The guard "if (!responseObject.gkn || !responseObject.initialHook)
throw" merged with the surrounding try/catch, as decodeTurnReply. -/
def decodeStoryReply : Option ParsedStoryReply → Option (Gkn × String)
  | none => none
  | some r =>
    match r.gkn, r.initialHook with
    | some g, some h => if h = "" then none else some (g, h)
    | _, _ => none

/-- The fixed fallback narrative returned when a turn's oracle call or
decode fails (string literal from processPlayerTurnLogic). -/
def fallbackNarrative : String :=
  "A strange energy flickers in the air, and your action seems to have no effect. The world remains as it was. (The game\x27s AI encountered an error.)"

/-- The serialized name of a disposition, as it appears in the JSON. -/
def NpcDisposition.toName : NpcDisposition → String
  | .friendly => "friendly"
  | .allied => "allied"
  | .neutral => "neutral"
  | .wary => "wary"
  | .suspicious => "suspicious"
  | .hostile => "hostile"
  | .deceived => "deceived"

/-- Read a disposition back from its serialized name. -/
def NpcDisposition.ofName (s : String) : Option NpcDisposition :=
  if s = "friendly" then some .friendly
  else if s = "allied" then some .allied
  else if s = "neutral" then some .neutral
  else if s = "wary" then some .wary
  else if s = "suspicious" then some .suspicious
  else if s = "hostile" then some .hostile
  else if s = "deceived" then some .deceived
  else none

/-- The serialized name of a plan status. -/
def PlanStatus.toName : PlanStatus → String
  | .active => "active"
  | .failed => "failed"
  | .succeeded => "succeeded"

/-- Read a plan status back from its serialized name. -/
def PlanStatus.ofName (s : String) : Option PlanStatus :=
  if s = "active" then some .active
  else if s = "failed" then some .failed
  else if s = "succeeded" then some .succeeded
  else none

/-- The serialized name of a genre, the exact strings of type StoryGenre. -/
def StoryGenre.toName : StoryGenre → String
  | .adventure => "Adventure"
  | .highFantasy => "High Fantasy"
  | .horror => "Horror"
  | .grittyRealism => "Gritty Realism"
  | .survival => "Survival"
  | .spyThriller => "Spy Thriller"
  | .teenDrama => "Teen Drama"
  | .cyberpunk => "Cyberpunk"
  | .sciFi => "Sci-Fi"

/-- Read a genre back from its serialized name. -/
def StoryGenre.ofName (s : String) : Option StoryGenre :=
  if s = "Adventure" then some .adventure
  else if s = "High Fantasy" then some .highFantasy
  else if s = "Horror" then some .horror
  else if s = "Gritty Realism" then some .grittyRealism
  else if s = "Survival" then some .survival
  else if s = "Spy Thriller" then some .spyThriller
  else if s = "Teen Drama" then some .teenDrama
  else if s = "Cyberpunk" then some .cyberpunk
  else if s = "Sci-Fi" then some .sciFi
  else none

/-- Escape a character for a JSON string literal (quote and backslash). -/
def escapeChar (c : Char) : String :=
  if c = '"' then "\\\"" else if c = '\\' then "\\\\" else String.singleton c

/-- Escape a whole string for a JSON string literal. -/
def escapeString (s : String) : String := String.join (s.toList.map escapeChar)

mutual

/-- Render a Json value to text, modelling JSON.stringify at the value
level (indentation whitespace abstracted away). -/
def Json.render : Json → String
  | .null => "null"
  | .bool b => if b then "true" else "false"
  | .num n => toString n
  | .str s => "\"" ++ escapeString s ++ "\""
  | .arr es => "[" ++ Json.renderArr es ++ "]"
  | .obj ms => "\x7b" ++ Json.renderObj ms ++ "\x7d"

/-- Render the comma-separated elements of a JSON array. -/
def Json.renderArr : List Json → String
  | [] => ""
  | [e] => Json.render e
  | e :: e2 :: es => Json.render e ++ "," ++ Json.renderArr (e2 :: es)

/-- Render the comma-separated members of a JSON object. -/
def Json.renderObj : List (String × Json) → String
  | [] => ""
  | [(k, v)] => "\"" ++ escapeString k ++ "\":" ++ Json.render v
  | (k, v) :: m :: ms => "\"" ++ escapeString k ++ "\":" ++ Json.render v ++ "," ++ Json.renderObj (m :: ms)

end

/-- Read a string out of an optional object field. -/
def Json.getStr : Option Json → Option String
  | some (.str s) => some s
  | _ => none

/-- Read a boolean out of an optional object field. -/
def Json.getBool : Option Json → Option Bool
  | some (.bool b) => some b
  | _ => none

/-- Read a non-negative integer out of an optional object field. -/
def Json.getNat : Option Json → Option Nat
  | some (.num (Int.ofNat n)) => some n
  | _ => none

/-- Read an integer out of an optional object field. -/
def Json.getInt : Option Json → Option Int
  | some (.num n) => some n
  | _ => none

/-- Decode every value of a keyed field list with f, keeping keys and order. -/
def decEntries {α : Type} (f : Json → Option α) : List (String × Json) → Option (List (String × α))
  | [] => some []
  | (k, j) :: rest =>
    match f j, decEntries f rest with
    | some a, some as => some ((k, a) :: as)
    | _, _ => none

/-- Decode a JSON array of strings. -/
def decStrings : List Json → Option (List String)
  | [] => some []
  | .str s :: rest =>
    match decStrings rest with
    | some ss => some (s :: ss)
    | _ => none
  | _ :: _ => none

/-- Encode one exit; optional TS fields are emitted only when present,
as JSON.stringify drops undefined-valued keys. -/
def encExit (e : ExitInfo) : Json :=
  .obj ([("toLocationId", .str e.toLocationId), ("description", .str e.description)]
    ++ (match e.isLocked with | none => [] | some b => [("isLocked", .bool b)])
    ++ (match e.keyId with | none => [] | some k => [("keyId", .str k)]))

/-- Decode one exit. -/
def decExit : Json → Option ExitInfo
  | .obj fs =>
    match Json.getStr (fs.lookup "toLocationId"), Json.getStr (fs.lookup "description") with
    | some t, some d =>
      some { toLocationId := t, description := d,
             isLocked := Json.getBool (fs.lookup "isLocked"),
             keyId := Json.getStr (fs.lookup "keyId") }
    | _, _ => none
  | _ => none

/-- Encode a location. -/
def encLocation (l : Location) : Json :=
  .obj [("id", .str l.id), ("name", .str l.name), ("description", .str l.description),
        ("exits", .obj (l.exits.map fun p => (p.1, encExit p.2))),
        ("items", .arr (l.items.map Json.str))]

/-- Decode a location. -/
def decLocation : Json → Option Location
  | .obj fs =>
    match Json.getStr (fs.lookup "id"), Json.getStr (fs.lookup "name"),
          Json.getStr (fs.lookup "description"), fs.lookup "exits", fs.lookup "items" with
    | some i, some n, some d, some (.obj exs), some (.arr its) =>
      match decEntries decExit exs, decStrings its with
      | some exits, some items => some { id := i, name := n, description := d, exits := exits, items := items }
      | _, _ => none
    | _, _, _, _, _ => none
  | _ => none

/-- Encode an item. -/
def encItem (it : Item) : Json :=
  .obj [("id", .str it.id), ("name", .str it.name), ("description", .str it.description)]

/-- Decode an item. -/
def decItem : Json → Option Item
  | .obj fs =>
    match Json.getStr (fs.lookup "id"), Json.getStr (fs.lookup "name"),
          Json.getStr (fs.lookup "description") with
    | some i, some n, some d => some { id := i, name := n, description := d }
    | _, _, _ => none
  | _ => none

/-- Encode an NPC plan. -/
def encPlan (p : CurrentPlan) : Json :=
  .obj [("description", .str p.description), ("status", .str p.status.toName)]

/-- Decode an NPC plan. -/
def decPlan : Json → Option CurrentPlan
  | .obj fs =>
    match Json.getStr (fs.lookup "description"), Json.getStr (fs.lookup "status") with
    | some d, some s =>
      match PlanStatus.ofName s with
      | some st => some { description := d, status := st }
      | none => none
    | _, _ => none
  | _ => none

/-- Encode an NPC; the optional currentPlan key is emitted only when present. -/
def encNpc (np : Npc) : Json :=
  .obj ([("id", .str np.id), ("name", .str np.name), ("isKeyNpc", .bool np.isKeyNpc),
         ("locationId", .str np.locationId),
         ("motivations", .arr (np.motivations.map Json.str)),
         ("personalityTags", .arr (np.personalityTags.map Json.str)),
         ("speechStyleCues", .str np.speechStyleCues), ("agenda", .str np.agenda),
         ("disposition", .str np.disposition.toName),
         ("knowledge", .obj np.knowledge)]
    ++ (match np.currentPlan with | none => [] | some p => [("currentPlan", encPlan p)]))

/-- Decode an NPC. -/
def decNpc : Json → Option Npc
  | .obj fs =>
    match Json.getStr (fs.lookup "id"), Json.getStr (fs.lookup "name"),
          Json.getBool (fs.lookup "isKeyNpc"), Json.getStr (fs.lookup "locationId"),
          fs.lookup "motivations", fs.lookup "personalityTags",
          Json.getStr (fs.lookup "speechStyleCues"), Json.getStr (fs.lookup "agenda"),
          Json.getStr (fs.lookup "disposition"), fs.lookup "knowledge" with
    | some i, some n, some key, some loc, some (.arr mots), some (.arr tags),
      some cues, some ag, some disp, some (.obj know) =>
      match decStrings mots, decStrings tags, NpcDisposition.ofName disp with
      | some motivations, some personalityTags, some disposition =>
        match fs.lookup "currentPlan" with
        | none =>
          some { id := i, name := n, isKeyNpc := key, locationId := loc,
                 motivations := motivations, personalityTags := personalityTags,
                 speechStyleCues := cues, agenda := ag, disposition := disposition,
                 knowledge := know, currentPlan := none }
        | some pj =>
          match decPlan pj with
          | some p =>
            some { id := i, name := n, isKeyNpc := key, locationId := loc,
                   motivations := motivations, personalityTags := personalityTags,
                   speechStyleCues := cues, agenda := ag, disposition := disposition,
                   knowledge := know, currentPlan := some p }
          | none => none
      | _, _, _ => none
    | _, _, _, _, _, _, _, _, _, _ => none
  | _ => none

/-- Encode the fluid countdown. -/
def encCountdown (c : FluidCountdown) : Json :=
  .obj [("description", .str c.description), ("stages", .arr (c.stages.map Json.str)),
        ("currentStage", .num c.currentStage)]

/-- Decode the fluid countdown. -/
def decCountdown : Json → Option FluidCountdown
  | .obj fs =>
    match Json.getStr (fs.lookup "description"), fs.lookup "stages",
          Json.getInt (fs.lookup "currentStage") with
    | some d, some (.arr sts), some cur =>
      match decStrings sts with
      | some stages => some { description := d, stages := stages, currentStage := cur }
      | none => none
    | _, _, _ => none
  | _ => none

/-- Encode one discoverable-info entry. -/
def encInfo (i : DiscoverableInfo) : Json :=
  .obj [("description", .str i.description), ("isDiscovered", .bool i.isDiscovered)]

/-- Decode one discoverable-info entry. -/
def decInfo : Json → Option DiscoverableInfo
  | .obj fs =>
    match Json.getStr (fs.lookup "description"), Json.getBool (fs.lookup "isDiscovered") with
    | some d, some b => some { description := d, isDiscovered := b }
    | _, _ => none
  | _ => none

/-- Encode the player sub-object. -/
def encPlayer (p : Player) : Json :=
  .obj [("name", .str p.name), ("locationId", .str p.locationId),
        ("inventory", .arr (p.inventory.map Json.str))]

/-- Decode the player sub-object. -/
def decPlayer : Json → Option Player
  | .obj fs =>
    match Json.getStr (fs.lookup "name"), Json.getStr (fs.lookup "locationId"),
          fs.lookup "inventory" with
    | some n, some loc, some (.arr inv) =>
      match decStrings inv with
      | some inventory => some { name := n, locationId := loc, inventory := inventory }
      | none => none
    | _, _, _ => none
  | _ => none

/-- Encode the world sub-object. -/
def encWorld (w : World) : Json :=
  .obj [("genre", .str w.genre.toName), ("coreConflict", .str w.coreConflict),
        ("locations", .obj (w.locations.map fun p => (p.1, encLocation p.2))),
        ("items", .obj (w.items.map fun p => (p.1, encItem p.2))),
        ("npcs", .obj (w.npcs.map fun p => (p.1, encNpc p.2))),
        ("fluidCountdown", encCountdown w.fluidCountdown),
        ("discoverableInfo", .obj (w.discoverableInfo.map fun p => (p.1, encInfo p.2))),
        ("storyFlags", .obj w.storyFlags)]

/-- Decode the world sub-object. -/
def decWorld : Json → Option World
  | .obj fs =>
    match Json.getStr (fs.lookup "genre"), Json.getStr (fs.lookup "coreConflict"),
          fs.lookup "locations", fs.lookup "items", fs.lookup "npcs",
          fs.lookup "fluidCountdown", fs.lookup "discoverableInfo", fs.lookup "storyFlags" with
    | some gname, some conflict, some (.obj locs), some (.obj its), some (.obj nps),
      some cd, some (.obj infos), some (.obj flags) =>
      match StoryGenre.ofName gname, decEntries decLocation locs, decEntries decItem its,
            decEntries decNpc nps, decCountdown cd, decEntries decInfo infos with
      | some genre, some locations, some items, some npcs, some fluidCountdown, some discoverableInfo =>
        some { genre := genre, coreConflict := conflict, locations := locations,
               items := items, npcs := npcs, fluidCountdown := fluidCountdown,
               discoverableInfo := discoverableInfo, storyFlags := flags }
      | _, _, _, _, _, _ => none
    | _, _, _, _, _, _, _, _ => none
  | _ => none

/-- Encode a whole gkn, the value JSON.stringify serializes inside
getGameMasterPrompt. -/
def gknToJson (g : Gkn) : Json :=
  .obj [("player", encPlayer g.player), ("world", encWorld g.world),
        ("turnCount", .num (Int.ofNat g.turnCount))]

/-- Decode a whole gkn from the parsed echo of an encoded state. -/
def gknFromJson : Json → Option Gkn
  | .obj fs =>
    match fs.lookup "player", fs.lookup "world", Json.getNat (fs.lookup "turnCount") with
    | some pj, some wj, some tc =>
      match decPlayer pj, decWorld wj with
      | some player, some world => some { player := player, world := world, turnCount := tc }
      | _, _ => none
    | _, _, _ => none
  | _ => none

/-- The OOC State Inspector narrative: the fixed banner followed by the
current gkn serialized with JSON.stringify. -/
def oocNarrative (g : Gkn) : String :=
  "--- OOC GKN State Inspector ---\n\n" ++ Json.render (gknToJson g)

/-- processPlayerTurnLogic from functions/src/index.ts: validate the two
inputs, load the session, check ownership, short-circuit OOC input, and
otherwise run the oracle reply through decoding, set the updated state's
turnCount from the previous one, and persist gkn plus lastModified. -/
def processPlayerTurnLogic (store : Store) (sessionId playerInput : String)
    (auth : Option String) (env : TurnEnv) : Except ErrCode (String × Store) :=
  if sessionId = "" ∨ playerInput = "" then
    .error .invalidArgument
  else
    match getDoc store sessionId with
    | none => .error .notFound
    | some gameSession =>
      if gameSession.userId ≠ anonymousUserId ∧ auth ≠ some gameSession.userId then
        .error .permissionDenied
      else if jsStartsWith playerInput "[" ∧ jsEndsWith playerInput "]" then
        .ok (oocNarrative gameSession.gkn, store)
      else
        match decodeTurnReply env.oracle with
        | none => .ok (fallbackNarrative, store)
        | some (narrativeResponse, updatedGkn) =>
          let newGkn : Gkn := { updatedGkn with turnCount := jsOrZero gameSession.gkn.turnCount + 1 }
          if env.writeOk then
            .ok (narrativeResponse, updateDoc store sessionId newGkn env.now)
          else
            .error .internal

/-- generateStoryLogic from functions/src/index.ts: validate seed and
genre, decode gkn and initialHook from the oracle reply (failure surfaces
as internal), then build the full session document around a fresh id and
persist it with a single set. -/
def generateStoryLogic (store : Store) (seed genre : String) (playerName : Option String)
    (auth : Option String) (env : StoryEnv) : Except ErrCode ((String × String) × Store) :=
  if seed = "" ∨ genre = "" then
    .error .invalidArgument
  else
    match decodeStoryReply env.oracle with
    | none => .error .internal
    | some (gknForDb, initialHook) =>
      if env.writeOk then
        let newSession : GameState :=
          { sessionId := env.newSessionId
            userId := jsOrDefault auth anonymousUserId
            initialHook := initialHook
            lastModified := env.now
            gkn := gknForDb }
        .ok ((env.newSessionId, initialHook), (env.newSessionId, newSession) :: store)
      else
        .error .internal

/-- Run one turn against the store, keeping the store unchanged when the
call throws (an HttpsError reaches the caller and nothing was written). -/
def runTurn (sessionId : String) (auth : Option String) (store : Store)
    (step : String × TurnEnv) : Store :=
  match processPlayerTurnLogic store sessionId step.1 auth step.2 with
  | .ok (_, s2) => s2
  | .error _ => store

/-- Run a sequence of turns, each with its own player input and environment. -/
def runTurns (sessionId : String) (auth : Option String) : Store → List (String × TurnEnv) → Store
  | store, [] => store
  | store, step :: rest => runTurns sessionId auth (runTurn sessionId auth store step) rest

/-- A step that commits: non-empty non-OOC input, a decodable oracle reply,
and a Firestore write that succeeds. -/
def goodStep (step : String × TurnEnv) : Prop :=
  step.1 ≠ "" ∧ ¬(jsStartsWith step.1 "[" ∧ jsEndsWith step.1 "]") ∧
  (decodeTurnReply step.2.oracle).isSome ∧ step.2.writeOk = true

/-- A concrete location for witnesses. -/
def sampleLocation : Location :=
  { id := "library", name := "Library", description := "Dusty shelves.",
    exits := [("north", { toLocationId := "hall", description := "A door.",
                          isLocked := some true, keyId := some "brassKey" })],
    items := ["brassKey"] }

/-- A concrete NPC for witnesses. -/
def sampleNpc : Npc :=
  { id := "keeper", name := "Keeper", isKeyNpc := true, locationId := "library",
    motivations := ["guard the vault"], personalityTags := ["grumpy"],
    speechStyleCues := "curt", agenda := "protect the secret",
    disposition := .wary, knowledge := [("vaultCode", Json.str "1234")],
    currentPlan := some { description := "watch the door", status := .active } }

/-- A concrete world for witnesses. -/
def sampleWorld : World :=
  { genre := .adventure, coreConflict := "a hidden secret",
    locations := [("library", sampleLocation)],
    items := [("brassKey", { id := "brassKey", name := "Brass Key", description := "Old." })],
    npcs := [("keeper", sampleNpc)],
    fluidCountdown := { description := "the clock ticks", stages := ["quiet"], currentStage := 0 },
    discoverableInfo := [("vault", { description := "a hidden vault", isDiscovered := false })],
    storyFlags := [("met", Json.bool true)] }

/-- A concrete fresh gkn for witnesses, turnCount 0. -/
def sampleGkn : Gkn :=
  { player := { name := "Alex", locationId := "library", inventory := [] },
    world := sampleWorld, turnCount := 0 }

/-- The gkn a stub oracle hands back as updated state. -/
def updatedSampleGkn : Gkn :=
  { player := { name := "Alex", locationId := "library", inventory := ["brassKey"] },
    world := sampleWorld, turnCount := 0 }

/-- An anonymous-owned session document. -/
def sampleSession : GameState :=
  { sessionId := "s1", userId := "anonymous", initialHook := "It begins.",
    lastModified := 0, gkn := sampleGkn }

/-- A store holding the anonymous session under id s1. -/
def sampleStore : Store := [("s1", sampleSession)]

/-- A session document owned by the authenticated user alice. -/
def ownedSession : GameState :=
  { sessionId := "s2", userId := "alice", initialHook := "It begins.",
    lastModified := 0, gkn := sampleGkn }

/-- A store holding the owned session under id s2. -/
def ownedStore : Store := [("s2", ownedSession)]

/-- A stub environment whose oracle reply commits a turn. -/
def sampleCommitEnv : TurnEnv :=
  { oracle := some { narrative := some "The door creaks.", updatedGkn := some updatedSampleGkn },
    now := 7, writeOk := true }

/-- A second committing stub environment, for the OOC counterexample. -/
def sampleCommitEnv2 : TurnEnv :=
  { oracle := some { narrative := some "Nothing happens.", updatedGkn := some updatedSampleGkn },
    now := 9, writeOk := true }

/-- A gkn as an oracle might return it at creation: turnCount 5 and a
non-empty starting inventory. -/
def echoedRichGkn : Gkn :=
  { player := { name := "Alex", locationId := "library", inventory := ["brassKey"] },
    world := sampleWorld, turnCount := 5 }

/-- A gkn whose player.locationId names no key of world.locations. -/
def danglingGkn : Gkn :=
  { player := { name := "Alex", locationId := "cellar", inventory := [] },
    world := sampleWorld, turnCount := 0 }

/-- A second dangling-location gkn, for the amended-claim witness. -/
def danglingGkn2 : Gkn :=
  { player := { name := "Kaelen", locationId := "attic", inventory := [] },
    world := sampleWorld, turnCount := 0 }

theorem jsOrZero_eq (n : Nat) : jsOrZero n = n := by
  by_cases h : n = 0 <;> simp [jsOrZero, h]

theorem decEntries_enc {α : Type} (f : Json → Option α) (g : α → Json)
    (h : ∀ a, f (g a) = some a) (l : List (String × α)) :
    decEntries f (l.map fun p => (p.1, g p.2)) = some l := by
  induction l with
  | nil => rfl
  | cons p rest ih => simp [decEntries, h, ih]

theorem decStrings_enc (l : List String) : decStrings (l.map Json.str) = some l := by
  induction l with
  | nil => rfl
  | cons s rest ih => simp [decStrings, ih]

theorem planStatus_ofName_eq (s : PlanStatus) : PlanStatus.ofName s.toName = some s := by
  cases s <;> rfl

theorem npcDisposition_ofName_eq (d : NpcDisposition) :
    NpcDisposition.ofName d.toName = some d := by
  cases d <;> rfl

theorem storyGenre_ofName_eq (g : StoryGenre) : StoryGenre.ofName g.toName = some g := by
  cases g <;> rfl

theorem decExit_enc (e : ExitInfo) : decExit (encExit e) = some e := by
  cases e with
  | mk t d lk ky =>
    cases lk <;> cases ky <;>
      simp [encExit, decExit, List.lookup, Json.getStr, Json.getBool]

theorem decLocation_enc (l : Location) : decLocation (encLocation l) = some l := by
  cases l with
  | mk i n d ex it =>
    simp [encLocation, decLocation, List.lookup, Json.getStr,
      decEntries_enc decExit encExit decExit_enc, decStrings_enc]

theorem decItem_enc (it : Item) : decItem (encItem it) = some it := by
  cases it with
  | mk i n d => simp [encItem, decItem, List.lookup, Json.getStr]

theorem decPlan_enc (p : CurrentPlan) : decPlan (encPlan p) = some p := by
  cases p with
  | mk d s =>
    simp [encPlan, decPlan, List.lookup, Json.getStr, planStatus_ofName_eq]

theorem decNpc_enc (np : Npc) : decNpc (encNpc np) = some np := by
  cases np with
  | mk i n key loc mots tags cues ag disp know plan =>
    cases plan <;>
      simp [encNpc, decNpc, List.lookup, Json.getStr, Json.getBool, decStrings_enc,
        npcDisposition_ofName_eq, decPlan_enc]

theorem decCountdown_enc (c : FluidCountdown) : decCountdown (encCountdown c) = some c := by
  cases c with
  | mk d sts cur =>
    simp [encCountdown, decCountdown, List.lookup, Json.getStr, Json.getInt, decStrings_enc]

theorem decInfo_enc (i : DiscoverableInfo) : decInfo (encInfo i) = some i := by
  cases i with
  | mk d b => simp [encInfo, decInfo, List.lookup, Json.getStr, Json.getBool]

theorem decPlayer_enc (p : Player) : decPlayer (encPlayer p) = some p := by
  cases p with
  | mk n loc inv =>
    simp [encPlayer, decPlayer, List.lookup, Json.getStr, decStrings_enc]

theorem decWorld_enc (w : World) : decWorld (encWorld w) = some w := by
  cases w with
  | mk g c locs its nps cd infos flags =>
    simp [encWorld, decWorld, List.lookup, Json.getStr, storyGenre_ofName_eq,
      decEntries_enc decLocation encLocation decLocation_enc,
      decEntries_enc decItem encItem decItem_enc,
      decEntries_enc decNpc encNpc decNpc_enc,
      decCountdown_enc,
      decEntries_enc decInfo encInfo decInfo_enc]

theorem gknFromJson_gknToJson (g : Gkn) : gknFromJson (gknToJson g) = some g := by
  cases g with
  | mk p w tc =>
    simp [gknToJson, gknFromJson, List.lookup, Json.getNat, decPlayer_enc, decWorld_enc]

theorem updateDoc_cons_self (k : String) (v : GameState) (rest : Store) (g : Gkn) (t : Nat) :
    updateDoc ((k, v) :: rest) k g t =
      (k, { v with gkn := g, lastModified := t }) :: updateDoc rest k g t := by
  simp [updateDoc]

theorem updateDoc_cons_other (k : String) (v : GameState) (rest : Store) (id : String)
    (g : Gkn) (t : Nat) (h : k ≠ id) :
    updateDoc ((k, v) :: rest) id g t = (k, v) :: updateDoc rest id g t := by
  simp [updateDoc, h]

theorem getDoc_updateDoc_self (store : Store) (id : String) (g : Gkn) (t : Nat) :
    getDoc (updateDoc store id g t) id =
      (getDoc store id).map fun s => { s with gkn := g, lastModified := t } := by
  induction store with
  | nil => rfl
  | cons p rest ih =>
    obtain ⟨k, v⟩ := p
    by_cases h : k = id
    · subst h
      rw [updateDoc_cons_self]
      simp [getDoc, List.lookup]
    · rw [updateDoc_cons_other k v rest id g t h]
      have hbeq : (id == k) = false := beq_eq_false_iff_ne.mpr (fun hh => h hh.symm)
      simp only [getDoc, List.lookup, hbeq]
      exact ih

/-- A committed (non-OOC, decoded, written) turn: the exact result of
processPlayerTurnLogic on the success path. -/
theorem processTurn_commit (store : Store) (sessionId playerInput : String)
    (auth : Option String) (env : TurnEnv)
    (hsid : sessionId ≠ "") (hinp : playerInput ≠ "")
    (s : GameState) (hfound : getDoc store sessionId = some s)
    (hauth : ¬(s.userId ≠ anonymousUserId ∧ auth ≠ some s.userId))
    (hooc : ¬(jsStartsWith playerInput "[" ∧ jsEndsWith playerInput "]"))
    (n : String) (g : Gkn) (hdec : decodeTurnReply env.oracle = some (n, g))
    (hw : env.writeOk = true) :
    processPlayerTurnLogic store sessionId playerInput auth env =
      .ok (n, updateDoc store sessionId { g with turnCount := s.gkn.turnCount + 1 } env.now) := by
  simp [processPlayerTurnLogic, hsid, hinp, hfound, hauth, hooc, hdec, hw, jsOrZero_eq]

/-- Iterating committed turns advances the stored turnCount by exactly the
number of turns and never rewrites the owner. -/
theorem runTurns_turnCount (sessionId : String) (auth : Option String)
    (hsid : sessionId ≠ "") :
    ∀ (steps : List (String × TurnEnv)) (store : Store) (s : GameState),
      getDoc store sessionId = some s →
      ¬(s.userId ≠ anonymousUserId ∧ auth ≠ some s.userId) →
      (∀ e ∈ steps, goodStep e) →
      ∃ s2, getDoc (runTurns sessionId auth store steps) sessionId = some s2 ∧
        s2.userId = s.userId ∧ s2.gkn.turnCount = s.gkn.turnCount + steps.length := by
  intro steps
  induction steps with
  | nil =>
    intro store s hfound _ _
    exact ⟨s, hfound, rfl, by simp⟩
  | cons step rest ih =>
    intro store s hfound hauth hgood
    obtain ⟨hinp, hooc, hdecs, hw⟩ := hgood step (List.mem_cons_self step rest)
    obtain ⟨⟨n, g⟩, hdec⟩ := Option.isSome_iff_exists.mp hdecs
    have hstep := processTurn_commit store sessionId step.1 auth step.2 hsid hinp s hfound
      hauth hooc n g hdec hw
    have hrun : runTurn sessionId auth store step =
        updateDoc store sessionId { g with turnCount := s.gkn.turnCount + 1 } step.2.now := by
      simp [runTurn, hstep]
    have hfound2 : getDoc (runTurn sessionId auth store step) sessionId =
        some { s with gkn := { g with turnCount := s.gkn.turnCount + 1 },
                      lastModified := step.2.now } := by
      rw [hrun, getDoc_updateDoc_self, hfound]
      rfl
    obtain ⟨s2, h1, h2, h3⟩ := ih (runTurn sessionId auth store step) _ hfound2 hauth
      (fun e he => hgood e (List.mem_cons_of_mem step he))
    refine ⟨s2, h1, h2, ?_⟩
    rw [h3]
    simp [List.length_cons]
    omega

/-- Claim C1: for every session state and every non-OOC player input, when
the oracle call or the decoding of its reply fails, processPlayerTurnLogic
persists nothing (the store comes back unchanged), surfaces no error, and
returns the fixed fallback narrative string. -/
theorem turn_oracle_failure_noop
    (store : Store) (sessionId playerInput : String) (auth : Option String) (env : TurnEnv)
    (hsid : sessionId ≠ "") (hinp : playerInput ≠ "")
    (s : GameState) (hfound : getDoc store sessionId = some s)
    (hauth : ¬(s.userId ≠ anonymousUserId ∧ auth ≠ some s.userId))
    (hooc : ¬(jsStartsWith playerInput "[" ∧ jsEndsWith playerInput "]"))
    (hfail : decodeTurnReply env.oracle = none) :
    processPlayerTurnLogic store sessionId playerInput auth env =
      .ok (fallbackNarrative, store) := by
  simp [processPlayerTurnLogic, hsid, hinp, hfound, hauth, hooc, hfail]

/-- Witness for C1 at a concrete session, input and failing oracle. -/
theorem turn_oracle_failure_noop_witness :
    processPlayerTurnLogic sampleStore "s1" "look around" none ⟨none, 5, true⟩ =
      .ok (fallbackNarrative, sampleStore) :=
  turn_oracle_failure_noop sampleStore "s1" "look around" none ⟨none, 5, true⟩
    (by decide) (by decide) sampleSession rfl (by decide) (by decide) rfl

/-- Counterexample to C3 as stated: the input "[status] " trims to OOC form,
yet the pipeline still consults the oracle and commits: the stored
turnCount advances from 0 to 1 and the reply narrative, not the inspector
banner, is returned. -/
theorem turn_ooc_trim_counterexample :
    processPlayerTurnLogic sampleStore "s1" "[status] " none sampleCommitEnv2 =
      .ok ("Nothing happens.",
           updateDoc sampleStore "s1" { updatedSampleGkn with turnCount := 1 } 9) ∧
    sampleSession.gkn.turnCount = 0 ∧
    (getDoc (updateDoc sampleStore "s1" { updatedSampleGkn with turnCount := 1 } 9) "s1").map
        (fun d => d.gkn.turnCount) = some 1 ∧
    "Nothing happens." ≠ oocNarrative sampleSession.gkn :=
  ⟨rfl, rfl, rfl, by decide⟩

/-- Amended claim C3: the OOC short-circuit tests the raw playerInput with
no trimming.  When the raw input starts with an opening bracket and ends
with a closing one, the oracle outcome is irrelevant, no state changes, and
the result is the current gkn serialized behind the fixed banner. -/
theorem turn_ooc_raw_inspector
    (store : Store) (sessionId playerInput : String) (auth : Option String) (env : TurnEnv)
    (hsid : sessionId ≠ "") (hinp : playerInput ≠ "")
    (s : GameState) (hfound : getDoc store sessionId = some s)
    (hauth : ¬(s.userId ≠ anonymousUserId ∧ auth ≠ some s.userId))
    (hooc : jsStartsWith playerInput "[" ∧ jsEndsWith playerInput "]") :
    processPlayerTurnLogic store sessionId playerInput auth env =
      .ok (oocNarrative s.gkn, store) := by
  simp [processPlayerTurnLogic, hsid, hinp, hfound, hauth, hooc]

/-- Witness for the amended C3 at a concrete OOC input. -/
theorem turn_ooc_raw_inspector_witness :
    processPlayerTurnLogic sampleStore "s1" "[inspect]" none ⟨none, 3, true⟩ =
      .ok (oocNarrative sampleGkn, sampleStore) :=
  turn_ooc_raw_inspector sampleStore "s1" "[inspect]" none ⟨none, 3, true⟩
    (by decide) (by decide) sampleSession rfl (by decide) (by decide)

/-- Claim C6: with non-empty seed and genre, an oracle failure or an
undecodable reply (parse failure or missing gkn or initialHook key) makes
createStory fail with the internal error; no fallback result and no
session document is produced. -/
theorem createStory_decode_failure_internal
    (store : Store) (seed genre : String) (playerName auth : Option String) (env : StoryEnv)
    (hseed : seed ≠ "") (hgenre : genre ≠ "")
    (hfail : decodeStoryReply env.oracle = none) :
    generateStoryLogic store seed genre playerName auth env = .error .internal := by
  simp [generateStoryLogic, hseed, hgenre, hfail]

/-- Witness for C6: a parsed reply missing the gkn key. -/
theorem createStory_decode_failure_internal_witness :
    generateStoryLogic sampleStore "A dusty old library" "Adventure" none none
      ⟨some ⟨none, some "An opening."⟩, "n9", 2, true⟩ = .error .internal :=
  createStory_decode_failure_internal sampleStore "A dusty old library" "Adventure" none none
    ⟨some ⟨none, some "An opening."⟩, "n9", 2, true⟩ (by decide) (by decide) rfl

/-- Claim C2: a committed turn persists turnCount = previous turnCount + 1
and stamps lastModified with the current instant; iterating N committed
turns from a session whose turnCount is 0 leaves turnCount exactly N. -/
theorem turn_commit_increments_turnCount
    (store : Store) (sessionId playerInput : String) (auth : Option String) (env : TurnEnv)
    (hsid : sessionId ≠ "") (hinp : playerInput ≠ "")
    (s : GameState) (hfound : getDoc store sessionId = some s)
    (hauth : ¬(s.userId ≠ anonymousUserId ∧ auth ≠ some s.userId))
    (hooc : ¬(jsStartsWith playerInput "[" ∧ jsEndsWith playerInput "]"))
    (n : String) (g : Gkn) (hdec : decodeTurnReply env.oracle = some (n, g))
    (hw : env.writeOk = true) :
    (processPlayerTurnLogic store sessionId playerInput auth env =
      .ok (n, updateDoc store sessionId { g with turnCount := s.gkn.turnCount + 1 } env.now)) ∧
    (getDoc (updateDoc store sessionId { g with turnCount := s.gkn.turnCount + 1 } env.now)
        sessionId =
      some { s with gkn := { g with turnCount := s.gkn.turnCount + 1 },
                    lastModified := env.now }) ∧
    (∀ steps : List (String × TurnEnv), (∀ e ∈ steps, goodStep e) → s.gkn.turnCount = 0 →
      ∃ s2, getDoc (runTurns sessionId auth store steps) sessionId = some s2 ∧
        s2.gkn.turnCount = steps.length) := by
  refine ⟨processTurn_commit store sessionId playerInput auth env hsid hinp s hfound hauth
    hooc n g hdec hw, ?_, ?_⟩
  · rw [getDoc_updateDoc_self, hfound]
    rfl
  · intro steps hgood h0
    obtain ⟨s2, h1, _, h3⟩ := runTurns_turnCount sessionId auth hsid steps store s hfound hauth hgood
    exact ⟨s2, h1, by rw [h3, h0]; omega⟩

/-- Witness for C2: one committed turn on the fresh sample session yields
stored turnCount 1, both directly and through the turn iterator. -/
theorem turn_commit_increments_turnCount_witness :
    (processPlayerTurnLogic sampleStore "s1" "open the door" none sampleCommitEnv =
      .ok ("The door creaks.",
           updateDoc sampleStore "s1" { updatedSampleGkn with turnCount := 1 } 7)) ∧
    (∃ s2, getDoc (runTurns "s1" none sampleStore [("open the door", sampleCommitEnv)]) "s1" =
        some s2 ∧ s2.gkn.turnCount = 1) := by
  have h := turn_commit_increments_turnCount sampleStore "s1" "open the door" none
    sampleCommitEnv (by decide) (by decide) sampleSession rfl (by decide) (by decide)
    "The door creaks." updatedSampleGkn rfl rfl
  refine ⟨h.1, ?_⟩
  have hall : ∀ e ∈ [("open the door", sampleCommitEnv)], goodStep e := by
    intro e he
    simp only [List.mem_singleton] at he
    subst he
    exact ⟨by decide, by decide, rfl, rfl⟩
  exact h.2.2 [("open the door", sampleCommitEnv)] hall rfl

/-- Claim C7: the persistence write of a committed turn touches only the
gkn and lastModified fields of the session document; sessionId, userId and
initialHook keep their previous values. -/
theorem turn_update_frame
    (store : Store) (sessionId playerInput : String) (auth : Option String) (env : TurnEnv)
    (hsid : sessionId ≠ "") (hinp : playerInput ≠ "")
    (s : GameState) (hfound : getDoc store sessionId = some s)
    (hauth : ¬(s.userId ≠ anonymousUserId ∧ auth ≠ some s.userId))
    (hooc : ¬(jsStartsWith playerInput "[" ∧ jsEndsWith playerInput "]"))
    (n : String) (g : Gkn) (hdec : decodeTurnReply env.oracle = some (n, g))
    (hw : env.writeOk = true) :
    ∃ store2, processPlayerTurnLogic store sessionId playerInput auth env = .ok (n, store2) ∧
      ∃ s2, getDoc store2 sessionId = some s2 ∧
        s2.sessionId = s.sessionId ∧ s2.userId = s.userId ∧ s2.initialHook = s.initialHook ∧
        s2.gkn = { g with turnCount := s.gkn.turnCount + 1 } ∧ s2.lastModified = env.now := by
  refine ⟨_, processTurn_commit store sessionId playerInput auth env hsid hinp s hfound hauth
    hooc n g hdec hw, ?_⟩
  have hupd : getDoc (updateDoc store sessionId { g with turnCount := s.gkn.turnCount + 1 }
      env.now) sessionId =
      some { s with gkn := { g with turnCount := s.gkn.turnCount + 1 },
                    lastModified := env.now } := by
    rw [getDoc_updateDoc_self, hfound]
    rfl
  exact ⟨_, hupd, rfl, rfl, rfl, rfl, rfl⟩

/-- Witness for C7 at a concrete committed turn. -/
theorem turn_update_frame_witness :
    ∃ store2, processPlayerTurnLogic sampleStore "s1" "take the key" none sampleCommitEnv =
        .ok ("The door creaks.", store2) ∧
      ∃ s2, getDoc store2 "s1" = some s2 ∧
        s2.sessionId = sampleSession.sessionId ∧ s2.userId = sampleSession.userId ∧
        s2.initialHook = sampleSession.initialHook ∧
        s2.gkn = { updatedSampleGkn with turnCount := 1 } ∧ s2.lastModified = 7 :=
  turn_update_frame sampleStore "s1" "take the key" none sampleCommitEnv
    (by decide) (by decide) sampleSession rfl (by decide) (by decide)
    "The door creaks." updatedSampleGkn rfl rfl

/-- Counterexample to C4 as stated: a createStory whose decoded reply
carries turnCount 5 and a non-empty inventory persists exactly those
values — nothing forces turnCount to 0 or the inventory to empty. -/
theorem createStory_no_forcing_counterexample :
    generateStoryLogic [] "A dusty old library" "Adventure" (some "Alex") none
        ⟨some ⟨some echoedRichGkn, some "An opening."⟩, "n1", 3, true⟩ =
      .ok (("n1", "An opening."),
           [("n1", { sessionId := "n1", userId := "anonymous", initialHook := "An opening.",
                     lastModified := 3, gkn := echoedRichGkn })]) ∧
    echoedRichGkn.turnCount = 5 ∧ echoedRichGkn.player.inventory = ["brassKey"] :=
  ⟨rfl, rfl, rfl⟩

/-- Amended claim C4: createStory persists the decoded reply's gkn exactly
as supplied; the persisted turnCount and inventory are the reply's own
values (turnCount 0 and an empty inventory are only requested from the
oracle through the prompt text, never enforced in code). -/
theorem createStory_persists_reply_gkn
    (store : Store) (seed genre : String) (playerName auth : Option String) (env : StoryEnv)
    (hseed : seed ≠ "") (hgenre : genre ≠ "")
    (g : Gkn) (hook : String) (hdec : decodeStoryReply env.oracle = some (g, hook))
    (hw : env.writeOk = true) :
    ∃ doc, generateStoryLogic store seed genre playerName auth env =
        .ok ((env.newSessionId, hook), (env.newSessionId, doc) :: store) ∧
      doc.gkn = g ∧ doc.gkn.turnCount = g.turnCount ∧
      doc.gkn.player.inventory = g.player.inventory := by
  refine ⟨{ sessionId := env.newSessionId, userId := jsOrDefault auth anonymousUserId,
            initialHook := hook, lastModified := env.now, gkn := g }, ?_, rfl, rfl, rfl⟩
  simp [generateStoryLogic, hseed, hgenre, hdec, hw]

/-- Witness for the amended C4 at a concrete reply with turnCount 5. -/
theorem createStory_persists_reply_gkn_witness :
    ∃ doc, generateStoryLogic [] "A haunted lighthouse" "Horror" none (some "bob")
        ⟨some ⟨some echoedRichGkn, some "Waves crash."⟩, "n2", 6, true⟩ =
        .ok (("n2", "Waves crash."), [("n2", doc)]) ∧
      doc.gkn = echoedRichGkn ∧ doc.gkn.turnCount = echoedRichGkn.turnCount ∧
      doc.gkn.player.inventory = echoedRichGkn.player.inventory :=
  createStory_persists_reply_gkn [] "A haunted lighthouse" "Horror" none (some "bob")
    ⟨some ⟨some echoedRichGkn, some "Waves crash."⟩, "n2", 6, true⟩
    (by decide) (by decide) echoedRichGkn "Waves crash." rfl rfl

/-- Counterexample to C5 as stated: a decoded state whose player.locationId
names no key of world.locations is silently persisted as a new session. -/
theorem createStory_dangling_location_counterexample :
    generateStoryLogic [] "seeded" "Adventure" none none
        ⟨some ⟨some danglingGkn, some "Open."⟩, "n3", 4, true⟩ =
      .ok (("n3", "Open."),
           [("n3", { sessionId := "n3", userId := "anonymous", initialHook := "Open.",
                     lastModified := 4, gkn := danglingGkn })]) ∧
    danglingGkn.player.locationId ∉ danglingGkn.world.locations.map Prod.fst :=
  ⟨rfl, by decide⟩

/-- Amended claim C5: generateStoryLogic performs no post-decode validation
of player.locationId; even a decoded state whose player.locationId is not a
key of world.locations is persisted as-is and the creation succeeds. -/
theorem createStory_no_location_validation
    (store : Store) (seed genre : String) (playerName auth : Option String) (env : StoryEnv)
    (hseed : seed ≠ "") (hgenre : genre ≠ "")
    (g : Gkn) (hook : String) (hdec : decodeStoryReply env.oracle = some (g, hook))
    (hw : env.writeOk = true)
    (hdangling : g.player.locationId ∉ g.world.locations.map Prod.fst) :
    ∃ doc, generateStoryLogic store seed genre playerName auth env =
        .ok ((env.newSessionId, hook), (env.newSessionId, doc) :: store) ∧
      doc.gkn = g ∧
      doc.gkn.player.locationId ∉ doc.gkn.world.locations.map Prod.fst := by
  refine ⟨{ sessionId := env.newSessionId, userId := jsOrDefault auth anonymousUserId,
            initialHook := hook, lastModified := env.now, gkn := g }, ?_, rfl, hdangling⟩
  simp [generateStoryLogic, hseed, hgenre, hdec, hw]

/-- Witness for the amended C5 at a second concrete dangling state. -/
theorem createStory_no_location_validation_witness :
    ∃ doc, generateStoryLogic [] "another seed" "Sci-Fi" none none
        ⟨some ⟨some danglingGkn2, some "Stars."⟩, "n4", 8, true⟩ =
        .ok (("n4", "Stars."), [("n4", doc)]) ∧
      doc.gkn = danglingGkn2 ∧
      doc.gkn.player.locationId ∉ doc.gkn.world.locations.map Prod.fst :=
  createStory_no_location_validation [] "another seed" "Sci-Fi" none none
    ⟨some ⟨some danglingGkn2, some "Stars."⟩, "n4", 8, true⟩
    (by decide) (by decide) danglingGkn2 "Stars." rfl rfl (by decide)

/-- Claim C8: a turn on a session owned by a non-anonymous user other than
the caller fails with permission-denied whatever the oracle or store
environment holds (so before any oracle call or write); a turn on an
anonymous-owned session never fails with permission-denied, for any caller
identity including an absent one. -/
theorem turn_authorization :
    (∀ (store : Store) (sessionId playerInput : String) (auth : Option String) (env : TurnEnv)
        (s : GameState), sessionId ≠ "" → playerInput ≠ "" →
        getDoc store sessionId = some s →
        s.userId ≠ anonymousUserId → auth ≠ some s.userId →
        processPlayerTurnLogic store sessionId playerInput auth env =
          .error .permissionDenied) ∧
    (∀ (store : Store) (sessionId playerInput : String) (auth : Option String) (env : TurnEnv)
        (s : GameState),
        getDoc store sessionId = some s → s.userId = anonymousUserId →
        processPlayerTurnLogic store sessionId playerInput auth env ≠
          .error .permissionDenied) := by
  constructor
  · intro store sessionId playerInput auth env s hsid hinp hfound hown hneq
    simp [processPlayerTurnLogic, hsid, hinp, hfound, hown, hneq]
  · intro store sessionId playerInput auth env s hfound hanon
    by_cases h1 : sessionId = "" ∨ playerInput = ""
    · simp [processPlayerTurnLogic, h1]
    · have hauth : ¬(s.userId ≠ anonymousUserId ∧ auth ≠ some s.userId) := by simp [hanon]
      simp only [processPlayerTurnLogic, if_neg h1, hfound, if_neg hauth]
      split
      · simp
      · cases hdec : decodeTurnReply env.oracle with
        | none => simp
        | some p =>
          obtain ⟨n, g⟩ := p
          by_cases hw : env.writeOk = true <;> simp [hw]

/-- Witness for C8: the owned session rejects a stranger, the anonymous
session accepts an absent identity. -/
theorem turn_authorization_witness :
    processPlayerTurnLogic ownedStore "s2" "look" (some "mallory") ⟨none, 0, true⟩ =
      .error .permissionDenied ∧
    processPlayerTurnLogic sampleStore "s1" "look" none ⟨none, 0, true⟩ ≠
      .error .permissionDenied :=
  ⟨turn_authorization.1 ownedStore "s2" "look" (some "mallory") ⟨none, 0, true⟩ ownedSession
      (by decide) (by decide) rfl (by decide) (by decide),
   turn_authorization.2 sampleStore "s1" "look" none ⟨none, 0, true⟩ sampleSession rfl rfl⟩

/-- Claim C9: decoding a well-framed reply that echoes the State-Codec
encoding of the current gkn unchanged recovers that gkn exactly, and the
turn pipeline then persists a state equal to the original in every field
except turnCount, which is incremented by exactly one. -/
theorem codec_echo_roundtrip_increment
    (store : Store) (sessionId playerInput : String) (auth : Option String) (now : Nat)
    (hsid : sessionId ≠ "") (hinp : playerInput ≠ "")
    (s : GameState) (hfound : getDoc store sessionId = some s)
    (hauth : ¬(s.userId ≠ anonymousUserId ∧ auth ≠ some s.userId))
    (hooc : ¬(jsStartsWith playerInput "[" ∧ jsEndsWith playerInput "]"))
    (narr : String) (hn : narr ≠ "") (g : Gkn)
    (hecho : gknFromJson (gknToJson s.gkn) = some g) :
    g = s.gkn ∧
    processPlayerTurnLogic store sessionId playerInput auth ⟨some ⟨some narr, some g⟩, now, true⟩ =
      .ok (narr, updateDoc store sessionId { s.gkn with turnCount := s.gkn.turnCount + 1 } now) := by
  have hg : g = s.gkn := by
    have h2 := gknFromJson_gknToJson s.gkn
    rw [hecho] at h2
    exact Option.some.inj h2
  subst hg
  exact ⟨rfl, processTurn_commit store sessionId playerInput auth _ hsid hinp s hfound hauth
    hooc narr s.gkn (by simp [decodeTurnReply, hn]) rfl⟩

/-- Witness for C9: the echoed encoding of the sample gkn decodes back to
it and one turn on it stores the same state with turnCount 1. -/
theorem codec_echo_roundtrip_increment_witness :
    sampleGkn = sampleSession.gkn ∧
    processPlayerTurnLogic sampleStore "s1" "wait" none
        ⟨some ⟨some "Time passes.", some sampleGkn⟩, 11, true⟩ =
      .ok ("Time passes.", updateDoc sampleStore "s1" { sampleGkn with turnCount := 1 } 11) :=
  codec_echo_roundtrip_increment sampleStore "s1" "wait" none 11 (by decide) (by decide)
    sampleSession rfl (by decide) (by decide) "Time passes." (by decide) sampleGkn
    (gknFromJson_gknToJson sampleGkn)

/-- Claim C10: a reply that parses but whose narrative key is present with
the falsy empty-string value, or whose updatedGkn key is absent (a JS null
value is modelled the same way), is handled exactly like a reply missing
that key: fallback narrative, no error, nothing persisted, and the result
coincides with that of a key-missing reply. -/
theorem turn_falsy_reply_like_missing
    (store : Store) (sessionId playerInput : String) (auth : Option String) (env : TurnEnv)
    (hsid : sessionId ≠ "") (hinp : playerInput ≠ "")
    (s : GameState) (hfound : getDoc store sessionId = some s)
    (hauth : ¬(s.userId ≠ anonymousUserId ∧ auth ≠ some s.userId))
    (hooc : ¬(jsStartsWith playerInput "[" ∧ jsEndsWith playerInput "]"))
    (r : ParsedTurnReply) (hor : env.oracle = some r)
    (hfalsy : r.narrative = some "" ∨ r.updatedGkn = none) :
    processPlayerTurnLogic store sessionId playerInput auth env =
      .ok (fallbackNarrative, store) ∧
    processPlayerTurnLogic store sessionId playerInput auth env =
      processPlayerTurnLogic store sessionId playerInput auth
        { env with oracle := some ⟨none, none⟩ } := by
  have hdec : decodeTurnReply env.oracle = none := by
    rw [hor]
    rcases hfalsy with h | h
    · cases hu : r.updatedGkn <;> simp [decodeTurnReply, h, hu]
    · cases hnarr : r.narrative <;> simp [decodeTurnReply, h, hnarr]
  constructor
  · simp [processPlayerTurnLogic, hsid, hinp, hfound, hauth, hooc, hdec]
  · have hdec2 : decodeTurnReply (some (⟨none, none⟩ : ParsedTurnReply)) = none := rfl
    simp [processPlayerTurnLogic, hsid, hinp, hfound, hauth, hooc, hdec, hdec2]

/-- Witness for C10 at the claim's own example: narrative present but
empty, updatedGkn present. -/
theorem turn_falsy_reply_like_missing_witness :
    processPlayerTurnLogic sampleStore "s1" "shout" none
        ⟨some ⟨some "", some updatedSampleGkn⟩, 13, true⟩ =
      .ok (fallbackNarrative, sampleStore) ∧
    processPlayerTurnLogic sampleStore "s1" "shout" none
        ⟨some ⟨some "", some updatedSampleGkn⟩, 13, true⟩ =
      processPlayerTurnLogic sampleStore "s1" "shout" none ⟨some ⟨none, none⟩, 13, true⟩ :=
  turn_falsy_reply_like_missing sampleStore "s1" "shout" none
    ⟨some ⟨some "", some updatedSampleGkn⟩, 13, true⟩ (by decide) (by decide)
    sampleSession rfl (by decide) (by decide) ⟨some "", some updatedSampleGkn⟩ rfl
    (Or.inl rfl)
